import Mathlib

/-!
Shallow embedding of the recording/transcription hook
(`src/hooks/useRecording.ts`) of the audio-ata-organizer repository.

The hook is single-threaded, event-driven React code.  We embed it as
explicit state passing: the useState cells of the hook become fields of
`HookState`, and every observable interaction with the outside world
(toast notifications, microphone acquisition, recorder/recognition
control calls, the HTTP POST to the transcription endpoint, voice-profile
registration) is recorded, in program order, in a list of `Effect`s
returned alongside the new state.

Asynchronous environment inputs (whether `getUserMedia` succeeds, the
outcome of the `fetch` to the transcription endpoint, the clock) are
passed as explicit parameters.  The `recorder.onstop` closure captures
the `recordingStartTime` value of the render in which it was created, so
the embedded handler takes the start-time value it observes as a
parameter rather than reading it from the state record.
-/

namespace UseRecording

/-- Recorder state, mirroring the DOM `MediaRecorder.state` strings
`"inactive"`, `"recording"`, `"paused"`. -/
inductive RecState where
  | inactive
  | recording
  | paused
deriving DecidableEq, Repr

/-- A media recorder together with the ids of the tracks of its stream
(`mediaRecorder.stream.getTracks()`). -/
structure Recorder where
  rstate : RecState
  tracks : List Nat
deriving DecidableEq, Repr

/-- Modelled from the spec: `TranscriptionSegment` (declared in
`@/types/transcription`, whose source is not in the repository snapshot)
"holds text, start/end offsets, optional speaker label". -/
structure TranscriptionSegment where
  text : String
  startOffset : Nat
  endOffset : Nat
  speaker : Option String
deriving DecidableEq, Repr

/-- One segment of the raw verbose-JSON transcription response. -/
structure RawSegment where
  text : String
  startOffset : Nat
  endOffset : Nat
deriving DecidableEq, Repr

/-- The parsed JSON body of a successful transcription response. -/
structure RawTranscription where
  segments : List RawSegment
deriving DecidableEq, Repr

/-- Modelled from the spec: `processTranscriptionResult` (from
`@/services/transcriptionService`, whose source is not in the repository
snapshot) "maps the raw result into structured segments" — one structured
timed segment per raw response segment, with no speaker attribution yet. -/
def processTranscriptionResult (raw : RawTranscription) : List TranscriptionSegment :=
  raw.segments.map (fun s =>
    { text := s.text, startOffset := s.startOffset, endOffset := s.endOffset,
      speaker := none })

/-- Modelled from the spec: a `VoiceProfile` (from
`@/services/voiceIdentificationService`, whose source is not in the
repository snapshot) is "name plus a placeholder embedding vector
(currently unpopulated)"; only the name matters to the hook. -/
structure VoiceProfile where
  name : String
deriving DecidableEq, Repr

/-- Modelled from the spec: `voiceIdentificationService.addProfile` appends
a profile for a newly detected name to the in-memory registry. -/
def registryAdd (reg : List VoiceProfile) (n : String) : List VoiceProfile :=
  reg ++ [{ name := n }]

/-- Every externally observable action of the hook, in program order. -/
inductive Effect where
  | toast (title desc : String) (destructive : Bool)
  | clearRegistry
  | playPrompt
  | getUserMedia
  | recorderStart (timesliceMs : Nat)
  | setTranscribing (b : Bool)
  | fetchPost (url bearer model language responseFormat : String)
  | setSegments (segs : List TranscriptionSegment)
  | recorderStop
  | recorderPause
  | recorderResume
  | trackStop (id : Nat)
  | recognitionStart
  | recognitionStop
  | addProfile (name : String)
deriving DecidableEq, Repr

/-- The useState cells of the hook, plus the module-level voice registry the
handlers read and write. -/
structure HookState where
  isRecording : Bool
  isPaused : Bool
  mediaRecorder : Option Recorder
  transcriptionSegments : List TranscriptionSegment
  isTranscribing : Bool
  speechRecognition : Option Unit
  recordingStartTime : Option Nat
  registry : List VoiceProfile
deriving DecidableEq, Repr

/-- The state of a freshly mounted hook: every cell at its `useState`
initial value. -/
def initialState : HookState :=
  { isRecording := false, isPaused := false, mediaRecorder := none,
    transcriptionSegments := [], isTranscribing := false,
    speechRecognition := none, recordingStartTime := none, registry := [] }

/-- Outcome of the `fetch` to the transcription endpoint, as the handler
observes it: a parsed success body, a non-ok response whose JSON error
body optionally carries `error.message`, or a thrown `Error` (network
failure or a `response.json()` parse failure) with its message. -/
inductive FetchOutcome where
  | success (raw : RawTranscription)
  | httpError (errMessage : Option String)
  | thrownError (msg : String)
deriving DecidableEq, Repr

/-- The transcription endpoint URL used by the handler. -/
def transcriptionUrl : String := "https://api.openai.com/v1/audio/transcriptions"

/-- The body of `recorder.onstop` after the short-recording guard has
passed: sets the transcribing flag, issues the POST, and on success stores
the mapped segments; any thrown error is caught and surfaced as a
destructive toast (the server-provided `error.message` when present, else
the generic `Falha na transcrição`); the `finally` block clears the flag
on every path. -/
def transcribeAttempt (apiKey : String) (outcome : FetchOutcome)
    (st : HookState) : HookState × List Effect :=
  match outcome with
  | .success raw =>
      let segs := processTranscriptionResult raw
      ({ st with transcriptionSegments := segs, isTranscribing := false },
       [Effect.setTranscribing true,
        Effect.fetchPost transcriptionUrl apiKey "whisper-1" "pt" "verbose_json",
        Effect.setSegments segs,
        Effect.toast "Transcrição concluída" "A ata da reunião está pronta." false,
        Effect.setTranscribing false])
  | .httpError m =>
      ({ st with isTranscribing := false },
       [Effect.setTranscribing true,
        Effect.fetchPost transcriptionUrl apiKey "whisper-1" "pt" "verbose_json",
        Effect.toast "Erro na transcrição" (m.getD "Falha na transcrição") true,
        Effect.setTranscribing false])
  | .thrownError msg =>
      ({ st with isTranscribing := false },
       [Effect.setTranscribing true,
        Effect.fetchPost transcriptionUrl apiKey "whisper-1" "pt" "verbose_json",
        Effect.toast "Erro na transcrição" msg true,
        Effect.setTranscribing false])

/-- `recorder.onstop`: rejects the recording with a warning toast when the
captured `recordingStartTime` is falsy (`null` or `0`) or fewer than 100
milliseconds elapsed since it; otherwise runs the transcription attempt. -/
def onstopHandler (apiKey : String) (startTime : Option Nat) (now : Nat)
    (outcome : FetchOutcome) (st : HookState) : HookState × List Effect :=
  match startTime with
  | none =>
      (st, [Effect.toast "Aviso"
              "A gravação é muito curta. Por favor, grave por mais tempo." true])
  | some t =>
      if t = 0 ∨ now - t < 100 then
        (st, [Effect.toast "Aviso"
                "A gravação é muito curta. Por favor, grave por mais tempo." true])
      else
        transcribeAttempt apiKey outcome st

/-- One transcript fragment of the body of `recognition.onresult`: runs
name recognition on the transcript and, when a (non-falsy) name comes back
that has no profile in the registry yet, adds a profile and toasts the new
participant. -/
def handleResultFragment (nameRec : String → Option String)
    (reg : List VoiceProfile) (transcript : String) :
    List VoiceProfile × List Effect :=
  match nameRec transcript with
  | none => (reg, [])
  | some n =>
      if n = "" then (reg, [])
      else if (reg.find? (fun p => p.name = n)).isSome then (reg, [])
      else
        (registryAdd reg n,
         [Effect.addProfile n,
          Effect.toast "Novo participante identificado"
            ("Identificamos o participante: " ++ n) false])

/-- A live-recognition result event: the index of the first new result and
the list of results, each carrying the transcript of its first
alternative (`event.results[i][0].transcript`). -/
structure SpeechEvent where
  resultIndex : Nat
  results : List String
deriving DecidableEq, Repr

/-- `recognition.onresult`: iterates the results from `event.resultIndex`
onward, processing each transcript fragment in turn. -/
def onresultHandler (nameRec : String → Option String) (ev : SpeechEvent)
    (reg : List VoiceProfile) : List VoiceProfile × List Effect :=
  (ev.results.drop ev.resultIndex).foldl
    (fun acc t =>
      let r := handleResultFragment nameRec acc.1 t
      (r.1, acc.2 ++ r.2))
    (reg, [])

/-- `startRecording(identificationEnabled)`: rejects an empty credential
with an error toast; otherwise optionally clears the registry and plays
the identification prompt, then requests the microphone (`mic` is `some`
of the track ids of the stream on success, `none` when acquisition throws, in
which case the catch block toasts a microphone error).  On success a
recorder is created and started with 1000 ms timeslices and the session
cells are set.  The created speech-recognition instance is configured but
never stored via `setSpeechRecognition` and never started, exactly as in
the source. -/
def startRecording (apiKey : String) (identificationEnabled : Bool)
    (mic : Option (List Nat)) (now : Nat) (st : HookState) :
    HookState × List Effect :=
  if apiKey = "" then
    (st, [Effect.toast "Erro"
            "Por favor, insira sua chave da API OpenAI primeiro." true])
  else
    let preEffects :=
      if identificationEnabled then [Effect.clearRegistry, Effect.playPrompt]
      else []
    let st1 := if identificationEnabled then { st with registry := [] } else st
    match mic with
    | none =>
        (st1, preEffects ++
          [Effect.getUserMedia,
           Effect.toast "Erro" "Não foi possível acessar o microfone." true])
    | some tracks =>
        ({ st1 with
            mediaRecorder := some { rstate := RecState.recording, tracks := tracks },
            recordingStartTime := some now,
            isRecording := true,
            isPaused := false },
         preEffects ++ [Effect.getUserMedia, Effect.recorderStart 1000])

/-- `stopRecording()`: when a recorder exists, stops it and every track of
its stream, stops the live-recognition listener when one is stored, and
resets the session cells to idle. -/
def stopRecording (st : HookState) : HookState × List Effect :=
  match st.mediaRecorder with
  | none => (st, [])
  | some r =>
      ({ st with isRecording := false, isPaused := false, mediaRecorder := none,
                 speechRecognition := none, recordingStartTime := none },
       Effect.recorderStop :: r.tracks.map Effect.trackStop ++
         (if st.speechRecognition.isSome then [Effect.recognitionStop] else []))

/-- `pauseRecording()`: only when a recorder exists and is in the
`recording` state — pauses the recorder, stops live recognition when one
is stored, marks the session paused and toasts. -/
def pauseRecording (st : HookState) : HookState × List Effect :=
  match st.mediaRecorder with
  | none => (st, [])
  | some r =>
      if r.rstate = RecState.recording then
        ({ st with mediaRecorder := some { r with rstate := RecState.paused },
                   isPaused := true },
         Effect.recorderPause ::
           (if st.speechRecognition.isSome then [Effect.recognitionStop] else []) ++
           [Effect.toast "Gravação pausada"
              "A gravação foi pausada. Clique em retomar para continuar." false])
      else (st, [])

/-- `resumeRecording()`: only when a recorder exists and is in the
`paused` state — resumes the recorder, restarts live recognition when one
is stored, clears the paused flag and toasts. -/
def resumeRecording (st : HookState) : HookState × List Effect :=
  match st.mediaRecorder with
  | none => (st, [])
  | some r =>
      if r.rstate = RecState.paused then
        ({ st with mediaRecorder := some { r with rstate := RecState.recording },
                   isPaused := false },
         Effect.recorderResume ::
           (if st.speechRecognition.isSome then [Effect.recognitionStart] else []) ++
           [Effect.toast "Gravação retomada" "A gravação foi retomada." false])
      else (st, [])

/-- One event-loop turn of the hook: a user operation or an asynchronous
recorder/recognition callback.  `recorderStopped` carries the
start-time value the `onstop` closure captured and the environment
clock and fetch outcome. -/
inductive Action where
  | start (identificationEnabled : Bool) (mic : Option (List Nat)) (now : Nat)
  | stop
  | pause
  | resume
  | recorderStopped (startTime : Option Nat) (now : Nat) (outcome : FetchOutcome)
  | recognitionResult (ev : SpeechEvent)

/-- Dispatch one action against the hook state. -/
def step (apiKey : String) (nameRec : String → Option String)
    (st : HookState) (a : Action) : HookState × List Effect :=
  match a with
  | .start identEnabled mic now => startRecording apiKey identEnabled mic now st
  | .stop => stopRecording st
  | .pause => pauseRecording st
  | .resume => resumeRecording st
  | .recorderStopped startTime now outcome =>
      onstopHandler apiKey startTime now outcome st
  | .recognitionResult ev =>
      let r := onresultHandler nameRec ev st.registry
      ({ st with registry := r.1 }, r.2)

/-- Run a sequence of actions, returning the final hook state. -/
def run (apiKey : String) (nameRec : String → Option String)
    (st : HookState) : List Action → HookState
  | [] => st
  | a :: rest => run apiKey nameRec (step apiKey nameRec st a).1 rest

/-- Run a sequence of actions, returning the concatenated effect trace. -/
def runTrace (apiKey : String) (nameRec : String → Option String)
    (st : HookState) : List Action → List Effect
  | [] => []
  | a :: rest =>
      (step apiKey nameRec st a).2 ++
        runTrace apiKey nameRec (step apiKey nameRec st a).1 rest

/-- A mocked 200 transcription response carrying one segment. -/
def mockSuccess : FetchOutcome :=
  FetchOutcome.success
    { segments := [{ text := "ola", startOffset := 0, endOffset := 5 }] }

/-- The ordinary mount → start → record → stop flow, with the closure
capture of the source: the `recorder.onstop` assigned at lines 71-124 is a
closure over the `recordingStartTime` const of the render in which
`startRecording` ran, i.e. over the value from before
`setRecordingStartTime(Date.now())` at line 127 executed — on a fresh
mount, `null` (`initialState.recordingStartTime`).  React state setters do
not mutate the already-captured const, so this is the value the handler
observes when the recording is stopped at `stopNow`. -/
def firstRecordingOnstop (apiKey : String) (startNow stopNow : Nat)
    (outcome : FetchOutcome) : HookState × List Effect :=
  let afterStart := (startRecording apiKey false (some [0]) startNow initialState).1
  onstopHandler apiKey initialState.recordingStartTime stopNow outcome afterStart

/-- The double-start flow: `startRecording` at `t1`, `startRecording`
again at `t2` without stopping.  The second call runs in a render whose
`recordingStartTime` is the value the first call stored (`some t1`), so
the `onstop` closure of the second recorder captures `some t1`; the
second recording is then stopped at `t3`. -/
def secondRecordingOnstop (apiKey : String) (t1 t2 t3 : Nat)
    (outcome : FetchOutcome) : HookState × List Effect :=
  let s1 := (startRecording apiKey false (some [0]) t1 initialState).1
  let s2 := (startRecording apiKey false (some [1]) t2 s1).1
  onstopHandler apiKey s1.recordingStartTime t3 outcome s2

/-! ## Theorems -/

/-- C1: code bug — in the mount → start → record 5 s → stop flow, the
`onstop` closure captured `recordingStartTime = null` (the value of the
render that created it, set only after the handler was assigned), so a
5-second recording (start at 1000 ms, stop at 6000 ms) with a non-empty
credential and a mocked 200 response is rejected as too short: only the
warning toast is emitted, no POST is issued, `transcriptionSegments`
stays empty and the transcribing flag never leaves `false` — the claimed
true→false transition with a non-empty segment list never happens. -/
theorem onstop_first_recording_rejected :
    firstRecordingOnstop "sk-test" 1000 6000 mockSuccess =
      ((startRecording "sk-test" false (some [0]) 1000 initialState).1,
       [Effect.toast "Aviso"
          "A gravação é muito curta. Por favor, grave por mais tempo." true]) ∧
    (firstRecordingOnstop "sk-test" 1000 6000 mockSuccess).1.transcriptionSegments
      = [] ∧
    (firstRecordingOnstop "sk-test" 1000 6000 mockSuccess).1.isTranscribing
      = false ∧
    ∀ u b m l f, Effect.fetchPost u b m l f ∉
      (firstRecordingOnstop "sk-test" 1000 6000 mockSuccess).2 := by
  have heq : firstRecordingOnstop "sk-test" 1000 6000 mockSuccess =
      ((startRecording "sk-test" false (some [0]) 1000 initialState).1,
       [Effect.toast "Aviso"
          "A gravação é muito curta. Por favor, grave por mais tempo." true]) := by
    decide
  refine ⟨heq, by decide, by decide, ?_⟩
  intro u b m l f
  rw [heq]
  simp

/-- C2: code bug — a 50 ms recording still triggers the network request:
after a start at 1000 ms and a second start at 6000 ms, the `onstop`
closure of the second recorder captured the earlier start time 1000 ms,
so when the second recording stops at 6050 ms — 50 ms, under 100 ms, after
its own start — the guard computes 6050 − 1000 = 5050 ≥ 100 and the
handler issues the POST to the transcription endpoint, refuting
"a stopped recording under 100 ms never triggers a network request". -/
theorem onstop_short_recording_fetches :
    6050 - 6000 < 100 ∧
    Effect.fetchPost transcriptionUrl "sk-test" "whisper-1" "pt" "verbose_json"
      ∈ (secondRecordingOnstop "sk-test" 1000 6000 6050 mockSuccess).2 ∧
    Effect.setTranscribing true
      ∈ (secondRecordingOnstop "sk-test" 1000 6000 6050 mockSuccess).2 := by
  decide

/-- C3: for every call to `startRecording` with an empty credential, the
function emits an error toast and returns without requesting the
microphone, and the whole hook state is unchanged. -/
theorem startRecording_empty_key (identEnabled : Bool)
    (mic : Option (List Nat)) (now : Nat) (st : HookState) :
    startRecording "" identEnabled mic now st =
      (st, [Effect.toast "Erro"
              "Por favor, insira sua chave da API OpenAI primeiro." true]) ∧
    Effect.getUserMedia ∉ (startRecording "" identEnabled mic now st).2 := by
  have heq : startRecording "" identEnabled mic now st =
      (st, [Effect.toast "Erro"
              "Por favor, insira sua chave da API OpenAI primeiro." true]) := by
    simp [startRecording]
  refine ⟨heq, ?_⟩
  rw [heq]
  simp

/-- C4: for every run of the onstop transcription attempt whose HTTP
response is non-success or whose parsing throws, the handler toasts the
server-provided error message when present (else the generic failure
message, or the thrown message), leaves `transcriptionSegments` unchanged,
and the transcribing flag is false afterwards; the flag is cleared on
every outcome, success included. -/
theorem onstop_failure_clears_flag (apiKey : String) (t now : Nat)
    (st : HookState) (ht : 0 < t) (helapsed : t + 100 ≤ now) :
    (∀ m, onstopHandler apiKey (some t) now (FetchOutcome.httpError (some m)) st =
       ({ st with isTranscribing := false },
        [Effect.setTranscribing true,
         Effect.fetchPost transcriptionUrl apiKey "whisper-1" "pt" "verbose_json",
         Effect.toast "Erro na transcrição" m true,
         Effect.setTranscribing false])) ∧
    (onstopHandler apiKey (some t) now (FetchOutcome.httpError none) st =
       ({ st with isTranscribing := false },
        [Effect.setTranscribing true,
         Effect.fetchPost transcriptionUrl apiKey "whisper-1" "pt" "verbose_json",
         Effect.toast "Erro na transcrição" "Falha na transcrição" true,
         Effect.setTranscribing false])) ∧
    (∀ m, onstopHandler apiKey (some t) now (FetchOutcome.thrownError m) st =
       ({ st with isTranscribing := false },
        [Effect.setTranscribing true,
         Effect.fetchPost transcriptionUrl apiKey "whisper-1" "pt" "verbose_json",
         Effect.toast "Erro na transcrição" m true,
         Effect.setTranscribing false])) ∧
    (∀ outcome, ((onstopHandler apiKey (some t) now outcome st).1).isTranscribing
        = false) := by
  have hguard : ¬ (t = 0 ∨ now - t < 100) := by omega
  refine ⟨?_, ?_, ?_, ?_⟩
  · intro m
    simp only [onstopHandler, if_neg hguard, transcribeAttempt, Option.getD]
  · simp only [onstopHandler, if_neg hguard, transcribeAttempt, Option.getD]
  · intro m
    simp only [onstopHandler, if_neg hguard, transcribeAttempt]
  · intro outcome
    cases outcome <;>
      simp only [onstopHandler, if_neg hguard, transcribeAttempt]

/-- C4 witness: an HTTP failure carrying a server message, after a valid
200 ms recording. -/
theorem onstop_failure_clears_flag_witness :
    ((onstopHandler "sk-test" (some 1000) 1200
        (FetchOutcome.httpError (some "quota")) initialState).1).isTranscribing
      = false :=
  (onstop_failure_clears_flag "sk-test" 1000 1200 initialState (by decide)
    (by decide)).2.2.2 (FetchOutcome.httpError (some "quota"))

/-- The effect list of one `onresult` transcript fragment never contains a
live-recognition control effect. -/
theorem fragment_no_recognition_effects (nameRec : String → Option String)
    (reg : List VoiceProfile) (t : String) :
    Effect.recognitionStart ∉ (handleResultFragment nameRec reg t).2 ∧
    Effect.recognitionStop ∉ (handleResultFragment nameRec reg t).2 := by
  unfold handleResultFragment
  cases hn : nameRec t with
  | none => simp
  | some n =>
      by_cases h1 : n = ""
      · simp [h1]
      · by_cases h2 : (reg.find? (fun p => p.name = n)).isSome <;>
          simp [h1, h2]

/-- The fold inside `onresult` never adds a live-recognition control
effect to its accumulator. -/
theorem foldl_fragments_no_recognition_effects
    (nameRec : String → Option String) (ts : List String)
    (reg : List VoiceProfile) (acc : List Effect)
    (h1 : Effect.recognitionStart ∉ acc) (h2 : Effect.recognitionStop ∉ acc) :
    Effect.recognitionStart ∉
      (ts.foldl (fun acc t =>
        let r := handleResultFragment nameRec acc.1 t
        (r.1, acc.2 ++ r.2)) (reg, acc)).2 ∧
    Effect.recognitionStop ∉
      (ts.foldl (fun acc t =>
        let r := handleResultFragment nameRec acc.1 t
        (r.1, acc.2 ++ r.2)) (reg, acc)).2 := by
  induction ts generalizing reg acc with
  | nil => exact ⟨h1, h2⟩
  | cons t ts ih =>
      simp only [List.foldl_cons]
      refine ih _ _ ?_ ?_
      · rw [List.mem_append]
        rintro (h | h)
        · exact h1 h
        · exact (fragment_no_recognition_effects nameRec reg t).1 h
      · rw [List.mem_append]
        rintro (h | h)
        · exact h2 h
        · exact (fragment_no_recognition_effects nameRec reg t).2 h

/-- A single step of the hook preserves "no stored live-recognition
instance" and emits no live-recognition control effect from such a
state. -/
theorem step_no_recognition (apiKey : String)
    (nameRec : String → Option String) (st : HookState) (a : Action)
    (h : st.speechRecognition = none) :
    (step apiKey nameRec st a).1.speechRecognition = none ∧
    Effect.recognitionStart ∉ (step apiKey nameRec st a).2 ∧
    Effect.recognitionStop ∉ (step apiKey nameRec st a).2 := by
  have hsome : st.speechRecognition.isSome = false := by rw [h]; rfl
  cases a with
  | start identEnabled mic now =>
      simp only [step, startRecording]
      by_cases hk : apiKey = ""
      · simp [hk, h]
      · cases mic <;> cases identEnabled <;> simp [hk, h]
  | stop =>
      simp only [step, stopRecording]
      cases hm : st.mediaRecorder with
      | none => simp [h]
      | some r =>
          refine ⟨rfl, ?_, ?_⟩ <;>
            simp [hsome, List.mem_append, List.mem_map]
  | pause =>
      simp only [step, pauseRecording]
      cases hm : st.mediaRecorder with
      | none => simp [h]
      | some r =>
          by_cases hr : r.rstate = RecState.recording
          · simp [hr, hsome, h]
          · simp [hr, h]
  | resume =>
      simp only [step, resumeRecording]
      cases hm : st.mediaRecorder with
      | none => simp [h]
      | some r =>
          by_cases hr : r.rstate = RecState.paused
          · simp [hr, hsome, h]
          · simp [hr, h]
  | recorderStopped startTime now outcome =>
      simp only [step, onstopHandler]
      cases startTime with
      | none => simp [h]
      | some t =>
          by_cases hg : t = 0 ∨ now - t < 100
          · simp [hg, h]
          · cases outcome <;> simp [hg, transcribeAttempt, h]
  | recognitionResult ev =>
      simp only [step, onresultHandler]
      exact ⟨h,
        (foldl_fragments_no_recognition_effects nameRec _ _ _
          (by simp) (by simp)).1,
        (foldl_fragments_no_recognition_effects nameRec _ _ _
          (by simp) (by simp)).2⟩

/-- `run`/`runTrace` from any state without a stored live-recognition
instance: the final state has none and the trace holds no
live-recognition control effect. -/
theorem run_no_recognition (apiKey : String)
    (nameRec : String → Option String) (acts : List Action) (st : HookState)
    (h : st.speechRecognition = none) :
    (run apiKey nameRec st acts).speechRecognition = none ∧
    Effect.recognitionStart ∉ runTrace apiKey nameRec st acts ∧
    Effect.recognitionStop ∉ runTrace apiKey nameRec st acts := by
  induction acts generalizing st with
  | nil => exact ⟨h, by simp [runTrace], by simp [runTrace]⟩
  | cons a rest ih =>
      obtain ⟨h1, h2, h3⟩ := step_no_recognition apiKey nameRec st a h
      obtain ⟨g1, g2, g3⟩ := ih (step apiKey nameRec st a).1 h1
      refine ⟨g1, ?_, ?_⟩ <;> simp only [runTrace, List.mem_append]
      · rintro (hc | hc)
        · exact h2 hc
        · exact g2 hc
      · rintro (hc | hc)
        · exact h3 hc
        · exact g3 hc

/-- C5: in every state reachable by any sequence of operations and
recorder/recognition events, the stored `speechRecognition` is `none`, and
no live-recognition instance is ever started or stopped (no
`recognitionStart` or `recognitionStop` effect in the whole trace). -/
theorem speechRecognition_never_live (apiKey : String)
    (nameRec : String → Option String) (acts : List Action) :
    (run apiKey nameRec initialState acts).speechRecognition = none ∧
    Effect.recognitionStart ∉ runTrace apiKey nameRec initialState acts ∧
    Effect.recognitionStop ∉ runTrace apiKey nameRec initialState acts :=
  run_no_recognition apiKey nameRec acts initialState rfl

/-- C6: for every transcript fragment processed by the live-recognition
result handler, a recognized name that already has a profile in the voice
registry causes no profile addition and no notification; and processing a
second fragment recognizing the same name leaves the registry exactly as
after the first (at-most-once registration, idempotent on repeat
detection). -/
theorem name_registration_at_most_once (nameRec : String → Option String)
    (reg : List VoiceProfile) :
    (∀ t n, nameRec t = some n → (∃ p ∈ reg, p.name = n) →
        handleResultFragment nameRec reg t = (reg, [])) ∧
    (∀ t1 t2 n, nameRec t1 = some n → nameRec t2 = some n →
        (handleResultFragment nameRec
            (handleResultFragment nameRec reg t1).1 t2).1 =
          (handleResultFragment nameRec reg t1).1) := by
  constructor
  · intro t n hn hp
    unfold handleResultFragment
    rw [hn]
    by_cases h1 : n = ""
    · simp [h1]
    · have hfind : (reg.find? (fun p => p.name = n)).isSome = true := by
        rw [List.find?_isSome]
        obtain ⟨p, hpmem, hpn⟩ := hp
        exact ⟨p, hpmem, by simp [hpn]⟩
      simp [h1, hfind]
  · intro t1 t2 n h1 h2
    unfold handleResultFragment
    rw [h1, h2]
    by_cases he : n = ""
    · simp [he]
    · by_cases hf : (reg.find? (fun p => p.name = n)).isSome
      · simp [he, hf]
      · have hfind2 : ((registryAdd reg n).find?
            (fun p => p.name = n)).isSome = true := by
          rw [List.find?_isSome]
          exact ⟨{ name := n }, by simp [registryAdd], by simp⟩
        simp [he, hf, registryAdd, hfind2]

/-- C6 witness: the name `Ana` is already registered, so processing a
fragment recognizing `Ana` changes nothing and emits nothing. -/
theorem name_registration_at_most_once_witness :
    handleResultFragment (fun t => if t = "sou a Ana" then some "Ana" else none)
        [{ name := "Ana" }] "sou a Ana" = ([{ name := "Ana" }], []) :=
  (name_registration_at_most_once
      (fun t => if t = "sou a Ana" then some "Ana" else none)
      [{ name := "Ana" }]).1 "sou a Ana" "Ana" (by decide)
    ⟨{ name := "Ana" }, by decide, by decide⟩

/-- C7: pausing with no recorder or a recorder not in the `recording`
state changes nothing; resuming with no recorder or a recorder not in the
`paused` state changes nothing. -/
theorem pause_resume_noop (st : HookState) :
    ((∀ r, st.mediaRecorder = some r → r.rstate ≠ RecState.recording) →
        pauseRecording st = (st, [])) ∧
    ((∀ r, st.mediaRecorder = some r → r.rstate ≠ RecState.paused) →
        resumeRecording st = (st, [])) := by
  constructor
  · intro h
    unfold pauseRecording
    cases hm : st.mediaRecorder with
    | none => rfl
    | some r => simp [h r hm]
  · intro h
    unfold resumeRecording
    cases hm : st.mediaRecorder with
    | none => rfl
    | some r => simp [h r hm]

/-- C7 witness: in the idle state (no recorder) both pause and resume are
no-ops. -/
theorem pause_resume_noop_witness :
    pauseRecording initialState = (initialState, []) ∧
    resumeRecording initialState = (initialState, []) :=
  ⟨(pause_resume_noop initialState).1
      (fun r hr => by simp [initialState] at hr),
   (pause_resume_noop initialState).2
      (fun r hr => by simp [initialState] at hr)⟩

/-- C8: with an active recorder, `stopRecording` stops the recorder and
every track of its stream and resets the session cells to idle, while
leaving `isTranscribing` and `transcriptionSegments` unchanged. -/
theorem stopRecording_resets (st : HookState) (r : Recorder)
    (h : st.mediaRecorder = some r) :
    stopRecording st =
      ({ st with isRecording := false, isPaused := false, mediaRecorder := none,
                 speechRecognition := none, recordingStartTime := none },
       Effect.recorderStop :: r.tracks.map Effect.trackStop ++
         (if st.speechRecognition.isSome then [Effect.recognitionStop]
          else [])) ∧
    (stopRecording st).1.isTranscribing = st.isTranscribing ∧
    (stopRecording st).1.transcriptionSegments = st.transcriptionSegments ∧
    ∀ i ∈ r.tracks, Effect.trackStop i ∈ (stopRecording st).2 := by
  have heq : stopRecording st =
      ({ st with isRecording := false, isPaused := false, mediaRecorder := none,
                 speechRecognition := none, recordingStartTime := none },
       Effect.recorderStop :: r.tracks.map Effect.trackStop ++
         (if st.speechRecognition.isSome then [Effect.recognitionStop]
          else [])) := by
    unfold stopRecording
    rw [h]
  refine ⟨heq, by rw [heq], by rw [heq], ?_⟩
  intro i hi
  rw [heq]
  simp only [List.cons_append, List.mem_cons, List.mem_append, List.mem_map]
  exact Or.inr (Or.inl ⟨i, hi, rfl⟩)

/-- C8 witness: stopping with a recorder over tracks 1 and 2. -/
theorem stopRecording_resets_witness :
    stopRecording { initialState with
        isRecording := true,
        mediaRecorder := some { rstate := RecState.recording, tracks := [1, 2] },
        recordingStartTime := some 1000 } =
      ({ initialState with
          isRecording := false, isPaused := false, mediaRecorder := none,
          speechRecognition := none, recordingStartTime := none },
       Effect.recorderStop ::
         [1, 2].map Effect.trackStop ++
         (if ({ initialState with
                  isRecording := true,
                  mediaRecorder :=
                    some { rstate := RecState.recording, tracks := [1, 2] },
                  recordingStartTime := some 1000 } :
                HookState).speechRecognition.isSome
          then [Effect.recognitionStop] else [])) :=
  (stopRecording_resets _ { rstate := RecState.recording, tracks := [1, 2] }
    rfl).1

/-- C9: with a non-empty credential, identification enabled clears the
voice registry and plays the identification prompt strictly before the
microphone is requested; identification disabled leaves the registry
untouched and neither clears nor prompts. -/
theorem startRecording_identification (apiKey : String)
    (mic : Option (List Nat)) (now : Nat) (st : HookState)
    (hkey : apiKey ≠ "") :
    ((startRecording apiKey true mic now st).1.registry = [] ∧
      ∃ rest, (startRecording apiKey true mic now st).2 =
        Effect.clearRegistry :: Effect.playPrompt :: Effect.getUserMedia ::
          rest) ∧
    ((startRecording apiKey false mic now st).1.registry = st.registry ∧
      Effect.playPrompt ∉ (startRecording apiKey false mic now st).2 ∧
      Effect.clearRegistry ∉ (startRecording apiKey false mic now st).2) := by
  refine ⟨⟨?_, ?_⟩, ?_, ?_, ?_⟩
  · unfold startRecording
    rw [if_neg hkey]
    cases mic <;> rfl
  · unfold startRecording
    rw [if_neg hkey]
    cases mic with
    | none =>
        exact ⟨[Effect.toast "Erro" "Não foi possível acessar o microfone."
                  true], rfl⟩
    | some tracks => exact ⟨[Effect.recorderStart 1000], rfl⟩
  · unfold startRecording
    rw [if_neg hkey]
    cases mic <;> rfl
  · unfold startRecording
    rw [if_neg hkey]
    cases mic <;> simp
  · unfold startRecording
    rw [if_neg hkey]
    cases mic <;> simp

/-- C9 witness: credential `sk-test`, microphone granted with track 0. -/
theorem startRecording_identification_witness :
    (startRecording "sk-test" true (some [0]) 42 initialState).1.registry
      = [] :=
  (startRecording_identification "sk-test" (some [0]) 42 initialState
    (by decide)).1.1

/-- The inductive invariant for C10: an existing recorder exactly
coincides with `isRecording`, and being paused implies recording. -/
def PausedInv (st : HookState) : Prop :=
  st.mediaRecorder.isSome = st.isRecording ∧
  (st.isPaused = true → st.isRecording = true)

/-- Every step of the hook preserves the C10 invariant. -/
theorem step_preserves_pausedInv (apiKey : String)
    (nameRec : String → Option String) (st : HookState) (a : Action)
    (h : PausedInv st) : PausedInv (step apiKey nameRec st a).1 := by
  obtain ⟨h1, h2⟩ := h
  cases a with
  | start identEnabled mic now =>
      simp only [step, startRecording]
      by_cases hk : apiKey = ""
      · simpa [hk, PausedInv] using ⟨h1, h2⟩
      · cases mic <;> cases identEnabled <;>
          simp [hk, PausedInv, h1] <;> exact h2
  | stop =>
      simp only [step, stopRecording]
      cases hm : st.mediaRecorder with
      | none => exact ⟨h1, h2⟩
      | some r => simp [PausedInv]
  | pause =>
      simp only [step, pauseRecording]
      cases hm : st.mediaRecorder with
      | none => exact ⟨h1, h2⟩
      | some r =>
          by_cases hr : r.rstate = RecState.recording
          · have hrec : st.isRecording = true := by rw [← h1, hm]; rfl
            simp [hr, PausedInv, hrec]
          · simpa [hr, PausedInv] using ⟨h1, h2⟩
  | resume =>
      simp only [step, resumeRecording]
      cases hm : st.mediaRecorder with
      | none => exact ⟨h1, h2⟩
      | some r =>
          by_cases hr : r.rstate = RecState.paused
          · have hrec : st.isRecording = true := by rw [← h1, hm]; rfl
            simp [hr, PausedInv, hrec]
          · simpa [hr, PausedInv] using ⟨h1, h2⟩
  | recorderStopped startTime now outcome =>
      simp only [step, onstopHandler]
      cases startTime with
      | none => exact ⟨h1, h2⟩
      | some t =>
          by_cases hg : t = 0 ∨ now - t < 100
          · simpa [hg] using ⟨h1, h2⟩
          · cases outcome <;>
              simpa [hg, transcribeAttempt, PausedInv] using ⟨h1, h2⟩
  | recognitionResult ev =>
      simp only [step]
      exact ⟨h1, h2⟩

/-- Any run from a state satisfying the C10 invariant ends in a state
satisfying it. -/
theorem run_preserves_pausedInv (apiKey : String)
    (nameRec : String → Option String) (acts : List Action) (st : HookState)
    (h : PausedInv st) : PausedInv (run apiKey nameRec st acts) := by
  induction acts generalizing st with
  | nil => exact h
  | cons a rest ih =>
      exact ih _ (step_preserves_pausedInv apiKey nameRec st a h)

/-- C10: in every reachable state of the hook, being paused implies being
recording with a non-null media recorder — the hook can never be paused
while idle. -/
theorem paused_implies_recording (apiKey : String)
    (nameRec : String → Option String) (acts : List Action)
    (h : (run apiKey nameRec initialState acts).isPaused = true) :
    (run apiKey nameRec initialState acts).isRecording = true ∧
    (run apiKey nameRec initialState acts).mediaRecorder.isSome = true := by
  have hinv : PausedInv (run apiKey nameRec initialState acts) :=
    run_preserves_pausedInv apiKey nameRec acts initialState ⟨rfl, by decide⟩
  obtain ⟨h1, h2⟩ := hinv
  have hr := h2 h
  exact ⟨hr, by rw [h1, hr]⟩

/-- C10 witness: starting and then pausing reaches a paused state, which
is indeed recording with a live recorder. -/
theorem paused_implies_recording_witness :
    (run "sk-test" (fun _ => none) initialState
        [Action.start false (some [0]) 1000, Action.pause]).isRecording
        = true ∧
    (run "sk-test" (fun _ => none) initialState
        [Action.start false (some [0]) 1000,
         Action.pause]).mediaRecorder.isSome = true :=
  paused_implies_recording "sk-test" (fun _ => none)
    [Action.start false (some [0]) 1000, Action.pause] (by rfl)

end UseRecording
